import Mathlib

/-!
# GuardNest: session validation, refresh and request gating

A shallow embedding of

* `internal/domain/session.go` (`Session`),
* `internal/service/auth/service.go` (`ValidateOrRefresh`, `GetSessionValidity`),
* `internal/http/middleware/auth.go` (`RequireAuth`),
* `internal/http/handlers/verify.go` (`Verify`).

The collaborators of the code (session repository, wall clock, HTTP client of
the refresh endpoint) are the fields of `Env`.  Every call the code makes on a
collaborator, on the response writer or on the wrapped handler is recorded, in
program order, in a list of `Event`s, so that "how many refresh calls", "which
cookies were added" and "was the protected handler invoked" are observations
of that list.
-/

namespace GuardNest

/-! ## Time (Go `time.Time` wall-clock instants and `time.Duration`) -/

/-! An instant of the wall clock (`time.Time`) is an `Int`, the nanoseconds
since the epoch; a `time.Duration` is an `Int` count of nanoseconds, which Go
keeps in 64 bits. -/

/-- Go `time.Second`, in nanoseconds. -/
def Second : Int := 1000000000

/-- Go `time.Minute`, in nanoseconds. -/
def Minute : Int := 60 * Second

/-- The smallest `time.Duration`. -/
def minDuration : Int := -9223372036854775808

/-- The largest `time.Duration`. -/
def maxDuration : Int := 9223372036854775807

/-- Go `t.After(u)`: the instant `t` is strictly later than `u`. -/
def After (t u : Int) : Bool := decide (u < t)

/-- Go `t.Sub(u)`: the difference `t - u`, saturated to the range of a
64-bit duration. -/
def Sub (t u : Int) : Int :=
  if t - u < minDuration then minDuration
  else if maxDuration < t - u then maxDuration
  else t - u

/-- Go `time.Until(t)`, which is `t.Sub(time.Now())`; `now` is the clock
reading taken inside the call. -/
def Until (now t : Int) : Int := Sub t now

/-! ## Data model -/

/-- The record of `internal/domain/session.go`. -/
structure Session where
  ID : String
  UserID : String
  ExpiresAt : Int
  RefreshToken : Option String
  RefreshExpiresAt : Option Int
deriving DecidableEq, Repr

/-- Go `error` values, identified by their message. -/
abbrev Error := String

/-- HTTP header lines in order, as (canonical key, value). -/
abbrev Header := List (String × String)

/-- Go `h.Values(key)`: every value stored under the key, in order. -/
def Header.Values (h : Header) (key : String) : List String :=
  (h.filter (fun kv => kv.1 = key)).map (fun kv => kv.2)

/-- Go `h.Get(key)`: the first value stored under the key, the empty string
when there is none. -/
def Header.Get (h : Header) (key : String) : String :=
  match h.Values key with
  | [] => ""
  | v :: _ => v

/-- The outgoing request built by `ValidateOrRefresh` for the refresh
endpoint. -/
structure OutRequest where
  Method : String
  URL : String
  Header : Header
deriving DecidableEq, Repr

/-- The part of an `*http.Response` the code reads. -/
structure Response where
  StatusCode : Int
  Header : Header
deriving DecidableEq, Repr

/-- A cookie as returned by `r.Cookies()`. -/
structure Cookie where
  Name : String
  Value : String
deriving DecidableEq, Repr

/-- The part of the incoming `*http.Request` the code reads: the header lines
`r.Header` and the cookies `r.Cookies()`, which net/http parses from every
`Cookie` line of the header. -/
structure Request where
  Header : Header
  Cookies : List Cookie
deriving DecidableEq, Repr

/-- Values written into a JSON object by the handlers. -/
inductive JSONValue where
  | str (s : String)
  | bool (b : Bool)
deriving DecidableEq, Repr

/-- The calls made by the code, in program order. -/
inductive Event where
  /-- Call `s.sessions.GetByToken(ctx, token)`. -/
  | GetByToken (token : String)
  /-- Call `http.NewRequestWithContext(ctx, method, url, nil)`: the start of a
  refresh attempt. -/
  | NewRequest (method url : String)
  /-- Call `s.next.HTTP.Do(req)`: the request sent to the refresh endpoint. -/
  | Do (req : OutRequest)
  /-- Call `w.Header().Set(key, value)`. -/
  | HeaderSet (key value : String)
  /-- Call `w.Header().Add(key, value)`. -/
  | HeaderAdd (key value : String)
  /-- Call `w.WriteHeader(status)`. -/
  | WriteHeader (status : Nat)
  /-- Call `json.NewEncoder(w).Encode(obj)`, keys in encoding order. -/
  | Encode (obj : List (String × JSONValue))
  /-- Call `next.ServeHTTP(w, r.WithContext(ctx))` with the user id bound in
  `ctx`. -/
  | ServeHTTP (userID : String)
deriving DecidableEq, Repr

/-- The collaborators of the service. -/
structure Env where
  /-- Result `(rec, err)` of `s.sessions.GetByToken`. -/
  GetByToken : String → Option Session × Option Error
  /-- Field `s.next.RefreshURL`. -/
  RefreshURL : String
  /-- Error of `http.NewRequestWithContext` for a POST to the given URL, `none`
  when the request can be built. -/
  NewRequestErr : String → Option Error
  /-- Result of `s.next.HTTP.Do(req)`. -/
  Do : OutRequest → Except Error Response
  /-- Clock reading of `time.Now()` in the function body. -/
  now : Int
  /-- Clock reading taken inside `time.Until`. -/
  untilNow : Int

/-! ## `internal/service/auth/service.go` -/

/-- The four results of `ValidateOrRefresh`. -/
structure VResult where
  session : Option Session
  setCookies : List String
  expired : Bool
  err : Option Error
deriving DecidableEq, Repr

/-- The request sent to the refresh endpoint: a POST without body, carrying
the forwarded cookie header when that is not empty. -/
def refreshRequest (url cookieHeader : String) : OutRequest :=
  { Method := "POST", URL := url,
    Header := if cookieHeader ≠ "" then [("Cookie", cookieHeader)] else [] }

/-- The body of `Service.ValidateOrRefresh`, with the calls it makes. -/
def ValidateOrRefresh (env : Env) (sessionID cookieHeader : String) :
    VResult × List Event :=
  match env.GetByToken sessionID with
  | (_, some err) => (⟨none, [], false, some err⟩, [Event.GetByToken sessionID])
  | (none, none) => (⟨none, [], false, none⟩, [Event.GetByToken sessionID])
  | (some rec, none) =>
    let expired := After env.now rec.ExpiresAt
    let nearExpiry := !expired && decide (Until env.untilNow rec.ExpiresAt ≤ 15 * Minute)
    if expired || nearExpiry then
      match env.NewRequestErr env.RefreshURL with
      | some err =>
        (⟨some rec, [], expired, some err⟩,
          [Event.GetByToken sessionID, Event.NewRequest "POST" env.RefreshURL])
      | none =>
        let req := refreshRequest env.RefreshURL cookieHeader
        match env.Do req with
        | Except.error err =>
          (⟨some rec, [], expired, some err⟩,
            [Event.GetByToken sessionID, Event.NewRequest "POST" env.RefreshURL, Event.Do req])
        | Except.ok resp =>
          if resp.StatusCode ≠ 200 then
            (⟨some rec, [], expired, some ("refresh failed: " ++ toString resp.StatusCode)⟩,
              [Event.GetByToken sessionID, Event.NewRequest "POST" env.RefreshURL, Event.Do req])
          else
            (⟨some rec, resp.Header.Values "Set-Cookie", expired, none⟩,
              [Event.GetByToken sessionID, Event.NewRequest "POST" env.RefreshURL, Event.Do req])
    else
      (⟨some rec, [], false, none⟩, [Event.GetByToken sessionID])

/-- The body of `Service.GetSessionValidity`, with the calls it makes. -/
def GetSessionValidity (env : Env) (sessionID : String) :
    (Option Session × Option Error) × List Event :=
  match env.GetByToken sessionID with
  | (_, some err) => ((none, some err), [Event.GetByToken sessionID])
  | (none, none) => ((none, none), [Event.GetByToken sessionID])
  | (some rec, none) =>
    if After env.now rec.ExpiresAt then ((none, none), [Event.GetByToken sessionID])
    else ((some rec, none), [Event.GetByToken sessionID])

/-! ## `internal/http/middleware/auth.go` and `internal/http/handlers/verify.go` -/

/-- The cookie loop of `RequireAuth` and `Verify`: the value of the first
cookie with the configured name, the empty string when there is none. -/
def findSessionID (sessionCookieName : String) : List Cookie → String
  | [] => ""
  | c :: cs => if c.Name = sessionCookieName then c.Value else findSessionID sessionCookieName cs

/-- The 401 answer of the gate: status and the JSON object with the reason. -/
def deny (reason : String) : List Event :=
  [Event.WriteHeader 401, Event.Encode [("error", JSONValue.str reason)]]

/-- The part of `RequireAuth` after the call of `ValidateOrRefresh`
(lines 35 to 50). -/
def gatePolicy (res : VResult × List Event) : List Event :=
  match res.1.err, res.1.session with
  | some _, _ => res.2 ++ deny "unauthorized"
  | none, none => res.2 ++ deny "unauthorized"
  | none, some rec =>
    let added := res.1.setCookies.map (fun sc => Event.HeaderAdd "Set-Cookie" sc)
    if res.1.expired && decide (res.1.setCookies.length > 0) then
      res.2 ++ added ++ deny "expired, refresh triggered"
    else
      res.2 ++ added ++ [Event.ServeHTTP rec.UserID]

/-- The handler built by `RequireAuth(svc, sessionCookieName)(next)`, as the
list of calls it makes for a request. -/
def RequireAuth (env : Env) (sessionCookieName : String) (r : Request) : List Event :=
  let sessionID := findSessionID sessionCookieName r.Cookies
  if sessionID = "" then deny "missing session"
  else gatePolicy (ValidateOrRefresh env sessionID (r.Header.Get "Cookie"))

/-- The handler built by `Verify(svc, sessionCookieName)`, as the list of
calls it makes for a request. -/
def Verify (env : Env) (sessionCookieName : String) (r : Request) : List Event :=
  let sessionID := findSessionID sessionCookieName r.Cookies
  if sessionID = "" then
    [Event.HeaderSet "Content-Type" "application/json", Event.WriteHeader 401,
      Event.Encode [("error", JSONValue.str "missing session"), ("valid", JSONValue.bool false)]]
  else
    match GetSessionValidity env sessionID with
    | ((_, some _), tr) =>
      Event.HeaderSet "Content-Type" "application/json" :: tr ++ [Event.WriteHeader 401,
        Event.Encode [("error", JSONValue.str "invalid or expired"), ("valid", JSONValue.bool false)]]
    | ((none, none), tr) =>
      Event.HeaderSet "Content-Type" "application/json" :: tr ++ [Event.WriteHeader 401,
        Event.Encode [("error", JSONValue.str "invalid or expired"), ("valid", JSONValue.bool false)]]
    | ((some rec, none), tr) =>
      Event.HeaderSet "Content-Type" "application/json" :: tr ++
        [Event.Encode [("userId", JSONValue.str rec.UserID), ("valid", JSONValue.bool true)]]

/-! ## Observations of a list of calls -/

/-- Number of refresh attempts started (requests built for the refresh
endpoint). -/
def refreshAttempts : List Event → Nat
  | [] => 0
  | Event.NewRequest _ _ :: tr => refreshAttempts tr + 1
  | _ :: tr => refreshAttempts tr

/-- Number of requests sent to the refresh endpoint. -/
def refreshCalls : List Event → Nat
  | [] => 0
  | Event.Do _ :: tr => refreshCalls tr + 1
  | _ :: tr => refreshCalls tr

/-- Number of session store lookups. -/
def storeLookups : List Event → Nat
  | [] => 0
  | Event.GetByToken _ :: tr => storeLookups tr + 1
  | _ :: tr => storeLookups tr

/-- The `Set-Cookie` values written to the response header (by `Add` or
`Set`), in order. -/
def addedSetCookies : List Event → List String
  | [] => []
  | Event.HeaderAdd key value :: tr =>
    if key = "Set-Cookie" then value :: addedSetCookies tr else addedSetCookies tr
  | Event.HeaderSet key value :: tr =>
    if key = "Set-Cookie" then value :: addedSetCookies tr else addedSetCookies tr
  | _ :: tr => addedSetCookies tr

/-- The status code written by the code itself, if any. -/
def writtenStatus : List Event → Option Nat
  | [] => none
  | Event.WriteHeader status :: _ => some status
  | _ :: tr => writtenStatus tr

/-- The value of the `error` field of the JSON object written, if any. -/
def writtenReason : List Event → Option String
  | [] => none
  | Event.Encode obj :: tr =>
    match obj.lookup "error" with
    | some (JSONValue.str s) => some s
    | _ => writtenReason tr
  | _ :: tr => writtenReason tr

/-- The user id with which the wrapped handler was invoked, `none` when it was
not invoked. -/
def servedUser : List Event → Option String
  | [] => none
  | Event.ServeHTTP userID :: _ => some userID
  | _ :: tr => servedUser tr

/-! ## Example environment -/

/-- A session record of user `user-1` with the given expiry. -/
def exampleSession (expiresAt : Int) : Session :=
  { ID := "sess-1", UserID := "user-1", ExpiresAt := expiresAt,
    RefreshToken := none, RefreshExpiresAt := none }

/-- An environment whose store holds one record, under the token `tok-A`;
both clock readings are `now`. -/
def exampleEnv (expiresAt now : Int) (newRequestErr : Option Error)
    (doResult : Except Error Response) : Env :=
  { GetByToken := fun token =>
      if token = "tok-A" then (some (exampleSession expiresAt), none) else (none, none),
    RefreshURL := "http://next.local/api/refresh",
    NewRequestErr := fun _ => newRequestErr,
    Do := fun _ => doResult,
    now := now,
    untilNow := now }

/-- A request with the header `Cookie: theme=dark; sid=tok-A`. -/
def exampleRequest : Request :=
  { Header := [("Cookie", "theme=dark; sid=tok-A")],
    Cookies := [⟨"theme", "dark"⟩, ⟨"sid", "tok-A"⟩] }

/-- A request with the single cookie `sid`, of empty value (header
`Cookie: sid=`). -/
def emptyValueRequest : Request :=
  { Header := [("Cookie", "sid=")], Cookies := [⟨"sid", ""⟩] }

/-- A request without the session cookie (header `Cookie: theme=dark`). -/
def noSessionRequest : Request :=
  { Header := [("Cookie", "theme=dark")], Cookies := [⟨"theme", "dark"⟩] }

/-- A request with two `Cookie` header lines, `Cookie: theme=dark` and
`Cookie: sid=tok-A`. -/
def twoLineRequest : Request :=
  { Header := [("Cookie", "theme=dark"), ("Cookie", "sid=tok-A")],
    Cookies := [⟨"theme", "dark"⟩, ⟨"sid", "tok-A"⟩] }

/-! ## Lemmas on the refresh decision -/

theorem until_le_window (now t : Int) :
    Until now t ≤ 15 * Minute ↔ t - now ≤ 15 * Minute := by
  unfold Until Sub minDuration maxDuration Minute Second
  split_ifs <;> constructor <;> intro _ <;> omega

/-- The condition of line 37, in terms of the two clock readings. -/
theorem refresh_due_iff (now untilNow t : Int) :
    (After now t || (!After now t && decide (Until untilNow t ≤ 15 * Minute))) = true ↔
      (t < now ∨ t - untilNow ≤ 15 * Minute) := by
  simp only [After, Bool.or_eq_true, Bool.and_eq_true, Bool.not_eq_true', decide_eq_true_eq,
    decide_eq_false_iff_not, until_le_window]
  constructor
  · rintro (h | ⟨_, h⟩)
    · exact Or.inl h
    · exact Or.inr h
  · rintro (h | h)
    · exact Or.inl h
    · by_cases hlt : t < now
      · exact Or.inl hlt
      · exact Or.inr ⟨hlt, h⟩

theorem ValidateOrRefresh_not_due (env : Env) (sessionID cookieHeader : String) (s : Session)
    (hfound : env.GetByToken sessionID = (some s, none))
    (hnow : ¬ s.ExpiresAt < env.now) (huntil : ¬ s.ExpiresAt - env.untilNow ≤ 15 * Minute) :
    ValidateOrRefresh env sessionID cookieHeader =
      (⟨some s, [], false, none⟩, [Event.GetByToken sessionID]) := by
  have hdue : ¬ (After env.now s.ExpiresAt ||
      (!After env.now s.ExpiresAt && decide (Until env.untilNow s.ExpiresAt ≤ 15 * Minute))) = true := by
    rw [refresh_due_iff]; tauto
  simp only [ValidateOrRefresh, hfound]
  rw [if_neg hdue]

theorem ValidateOrRefresh_build_error (env : Env) (sessionID cookieHeader : String) (s : Session)
    (e : Error)
    (hfound : env.GetByToken sessionID = (some s, none))
    (hdue : s.ExpiresAt < env.now ∨ s.ExpiresAt - env.untilNow ≤ 15 * Minute)
    (hbuild : env.NewRequestErr env.RefreshURL = some e) :
    ValidateOrRefresh env sessionID cookieHeader =
      (⟨some s, [], decide (s.ExpiresAt < env.now), some e⟩,
        [Event.GetByToken sessionID, Event.NewRequest "POST" env.RefreshURL]) := by
  have hdue2 := (refresh_due_iff env.now env.untilNow s.ExpiresAt).mpr hdue
  simp only [ValidateOrRefresh, hfound]
  rw [if_pos hdue2]
  simp only [hbuild, After]

theorem ValidateOrRefresh_transport_error (env : Env) (sessionID cookieHeader : String)
    (s : Session) (e : Error)
    (hfound : env.GetByToken sessionID = (some s, none))
    (hdue : s.ExpiresAt < env.now ∨ s.ExpiresAt - env.untilNow ≤ 15 * Minute)
    (hbuild : env.NewRequestErr env.RefreshURL = none)
    (hdo : env.Do (refreshRequest env.RefreshURL cookieHeader) = Except.error e) :
    ValidateOrRefresh env sessionID cookieHeader =
      (⟨some s, [], decide (s.ExpiresAt < env.now), some e⟩,
        [Event.GetByToken sessionID, Event.NewRequest "POST" env.RefreshURL,
          Event.Do (refreshRequest env.RefreshURL cookieHeader)]) := by
  have hdue2 := (refresh_due_iff env.now env.untilNow s.ExpiresAt).mpr hdue
  simp only [ValidateOrRefresh, hfound]
  rw [if_pos hdue2]
  simp only [hbuild, hdo, After]

theorem ValidateOrRefresh_bad_status (env : Env) (sessionID cookieHeader : String)
    (s : Session) (resp : Response)
    (hfound : env.GetByToken sessionID = (some s, none))
    (hdue : s.ExpiresAt < env.now ∨ s.ExpiresAt - env.untilNow ≤ 15 * Minute)
    (hbuild : env.NewRequestErr env.RefreshURL = none)
    (hdo : env.Do (refreshRequest env.RefreshURL cookieHeader) = Except.ok resp)
    (hstatus : resp.StatusCode ≠ 200) :
    ValidateOrRefresh env sessionID cookieHeader =
      (⟨some s, [], decide (s.ExpiresAt < env.now),
          some ("refresh failed: " ++ toString resp.StatusCode)⟩,
        [Event.GetByToken sessionID, Event.NewRequest "POST" env.RefreshURL,
          Event.Do (refreshRequest env.RefreshURL cookieHeader)]) := by
  have hdue2 := (refresh_due_iff env.now env.untilNow s.ExpiresAt).mpr hdue
  simp only [ValidateOrRefresh, hfound]
  rw [if_pos hdue2]
  simp only [hbuild, hdo, After]
  rw [if_pos hstatus]

theorem ValidateOrRefresh_status_ok (env : Env) (sessionID cookieHeader : String)
    (s : Session) (resp : Response)
    (hfound : env.GetByToken sessionID = (some s, none))
    (hdue : s.ExpiresAt < env.now ∨ s.ExpiresAt - env.untilNow ≤ 15 * Minute)
    (hbuild : env.NewRequestErr env.RefreshURL = none)
    (hdo : env.Do (refreshRequest env.RefreshURL cookieHeader) = Except.ok resp)
    (hstatus : resp.StatusCode = 200) :
    ValidateOrRefresh env sessionID cookieHeader =
      (⟨some s, resp.Header.Values "Set-Cookie", decide (s.ExpiresAt < env.now), none⟩,
        [Event.GetByToken sessionID, Event.NewRequest "POST" env.RefreshURL,
          Event.Do (refreshRequest env.RefreshURL cookieHeader)]) := by
  have hdue2 := (refresh_due_iff env.now env.untilNow s.ExpiresAt).mpr hdue
  simp only [ValidateOrRefresh, hfound]
  rw [if_pos hdue2]
  simp only [hbuild, hdo, After]
  rw [if_neg (not_not.mpr hstatus)]

theorem ValidateOrRefresh_missing (env : Env) (sessionID cookieHeader : String)
    (hstore : env.GetByToken sessionID = (none, none)) :
    ValidateOrRefresh env sessionID cookieHeader =
      (⟨none, [], false, none⟩, [Event.GetByToken sessionID]) := by
  simp only [ValidateOrRefresh, hstore]

theorem ValidateOrRefresh_store_error (env : Env) (sessionID cookieHeader : String)
    (x : Option Session) (e : Error)
    (hstore : env.GetByToken sessionID = (x, some e)) :
    ValidateOrRefresh env sessionID cookieHeader =
      (⟨none, [], false, some e⟩, [Event.GetByToken sessionID]) := by
  cases x <;> simp only [ValidateOrRefresh, hstore]

/-- For a found session the returned flag is the comparison of line 34. -/
theorem ValidateOrRefresh_flag (env : Env) (sessionID cookieHeader : String) (s : Session)
    (hfound : env.GetByToken sessionID = (some s, none)) :
    (ValidateOrRefresh env sessionID cookieHeader).1.expired = decide (s.ExpiresAt < env.now) := by
  by_cases hdue : s.ExpiresAt < env.now ∨ s.ExpiresAt - env.untilNow ≤ 15 * Minute
  · cases hb : env.NewRequestErr env.RefreshURL with
    | some e => rw [ValidateOrRefresh_build_error env sessionID cookieHeader s e hfound hdue hb]
    | none =>
      cases hd : env.Do (refreshRequest env.RefreshURL cookieHeader) with
      | error e =>
        rw [ValidateOrRefresh_transport_error env sessionID cookieHeader s e hfound hdue hb hd]
      | ok resp =>
        by_cases hst : resp.StatusCode = 200
        · rw [ValidateOrRefresh_status_ok env sessionID cookieHeader s resp hfound hdue hb hd hst]
        · rw [ValidateOrRefresh_bad_status env sessionID cookieHeader s resp hfound hdue hb hd
            hst]
  · have h1 : ¬ s.ExpiresAt < env.now := fun h => hdue (Or.inl h)
    have h2 : ¬ s.ExpiresAt - env.untilNow ≤ 15 * Minute := fun h => hdue (Or.inr h)
    rw [ValidateOrRefresh_not_due env sessionID cookieHeader s hfound h1 h2]
    simp [h1]

/-- For a found session that is expired or near expiry one refresh is
attempted, and the request is sent once when it can be built. -/
theorem ValidateOrRefresh_due_counts (env : Env) (sessionID cookieHeader : String) (s : Session)
    (hfound : env.GetByToken sessionID = (some s, none))
    (hdue : s.ExpiresAt < env.now ∨ s.ExpiresAt - env.untilNow ≤ 15 * Minute) :
    refreshAttempts (ValidateOrRefresh env sessionID cookieHeader).2 = 1 ∧
    refreshCalls (ValidateOrRefresh env sessionID cookieHeader).2 =
      if env.NewRequestErr env.RefreshURL = none then 1 else 0 := by
  cases hb : env.NewRequestErr env.RefreshURL with
  | some e =>
    rw [ValidateOrRefresh_build_error env sessionID cookieHeader s e hfound hdue hb]
    simp [refreshAttempts, refreshCalls]
  | none =>
    cases hd : env.Do (refreshRequest env.RefreshURL cookieHeader) with
    | error e =>
      rw [ValidateOrRefresh_transport_error env sessionID cookieHeader s e hfound hdue hb hd]
      simp [refreshAttempts, refreshCalls]
    | ok resp =>
      by_cases hst : resp.StatusCode = 200
      · rw [ValidateOrRefresh_status_ok env sessionID cookieHeader s resp hfound hdue hb hd hst]
        simp [refreshAttempts, refreshCalls]
      · rw [ValidateOrRefresh_bad_status env sessionID cookieHeader s resp hfound hdue hb hd hst]
        simp [refreshAttempts, refreshCalls]

/-- The calls of `ValidateOrRefresh`: the store lookup, then possibly the
construction of the refresh request, then possibly its sending. -/
theorem ValidateOrRefresh_trace (env : Env) (sessionID cookieHeader : String) :
    (ValidateOrRefresh env sessionID cookieHeader).2 = [Event.GetByToken sessionID] ∨
    (ValidateOrRefresh env sessionID cookieHeader).2 =
      [Event.GetByToken sessionID, Event.NewRequest "POST" env.RefreshURL] ∨
    (ValidateOrRefresh env sessionID cookieHeader).2 =
      [Event.GetByToken sessionID, Event.NewRequest "POST" env.RefreshURL,
        Event.Do (refreshRequest env.RefreshURL cookieHeader)] := by
  rcases hg : env.GetByToken sessionID with ⟨a, b⟩
  cases b with
  | some e =>
    rw [ValidateOrRefresh_store_error env sessionID cookieHeader a e hg]
    exact Or.inl rfl
  | none =>
    cases a with
    | none =>
      rw [ValidateOrRefresh_missing env sessionID cookieHeader hg]
      exact Or.inl rfl
    | some s =>
      by_cases hdue : s.ExpiresAt < env.now ∨ s.ExpiresAt - env.untilNow ≤ 15 * Minute
      · cases hb : env.NewRequestErr env.RefreshURL with
        | some e =>
          rw [ValidateOrRefresh_build_error env sessionID cookieHeader s e hg hdue hb]
          exact Or.inr (Or.inl rfl)
        | none =>
          cases hd : env.Do (refreshRequest env.RefreshURL cookieHeader) with
          | error e =>
            rw [ValidateOrRefresh_transport_error env sessionID cookieHeader s e hg hdue hb hd]
            exact Or.inr (Or.inr rfl)
          | ok resp =>
            by_cases hst : resp.StatusCode = 200
            · rw [ValidateOrRefresh_status_ok env sessionID cookieHeader s resp hg hdue hb hd hst]
              exact Or.inr (Or.inr rfl)
            · rw [ValidateOrRefresh_bad_status env sessionID cookieHeader s resp hg hdue hb hd
                hst]
              exact Or.inr (Or.inr rfl)
      · have h1 : ¬ s.ExpiresAt < env.now := fun h => hdue (Or.inl h)
        have h2 : ¬ s.ExpiresAt - env.untilNow ≤ 15 * Minute := fun h => hdue (Or.inr h)
        rw [ValidateOrRefresh_not_due env sessionID cookieHeader s hg h1 h2]
        exact Or.inl rfl

/-! ## The session validator -/

/-- C5: for a found session whose `ExpiresAt` is more than 15 minutes after
the current time (at both clock readings of the call), `ValidateOrRefresh`
returns the stored record, an empty cookie list, `expired = false` and no
error; its only call is the store lookup, so no refresh is attempted and no
request is sent to the refresh endpoint. -/
theorem ValidateOrRefresh_far_from_expiry (env : Env) (sessionID cookieHeader : String)
    (s : Session)
    (hfound : env.GetByToken sessionID = (some s, none))
    (hnow : 15 * Minute < s.ExpiresAt - env.now)
    (huntil : 15 * Minute < s.ExpiresAt - env.untilNow) :
    (ValidateOrRefresh env sessionID cookieHeader).1 = ⟨some s, [], false, none⟩ ∧
    (ValidateOrRefresh env sessionID cookieHeader).2 = [Event.GetByToken sessionID] ∧
    refreshAttempts (ValidateOrRefresh env sessionID cookieHeader).2 = 0 ∧
    refreshCalls (ValidateOrRefresh env sessionID cookieHeader).2 = 0 := by
  have h1 : ¬ s.ExpiresAt < env.now := by
    unfold Minute Second at hnow
    omega
  have h2 : ¬ s.ExpiresAt - env.untilNow ≤ 15 * Minute := by omega
  rw [ValidateOrRefresh_not_due env sessionID cookieHeader s hfound h1 h2]
  simp [refreshAttempts, refreshCalls]

theorem ValidateOrRefresh_far_from_expiry_witness :
    (ValidateOrRefresh (exampleEnv 2000000000000 0 none (Except.error "down")) "tok-A"
        "sid=tok-A").1 = ⟨some (exampleSession 2000000000000), [], false, none⟩ ∧
    refreshCalls (ValidateOrRefresh (exampleEnv 2000000000000 0 none (Except.error "down"))
        "tok-A" "sid=tok-A").2 = 0 :=
  have h := ValidateOrRefresh_far_from_expiry
    (exampleEnv 2000000000000 0 none (Except.error "down")) "tok-A" "sid=tok-A"
    (exampleSession 2000000000000) (by rfl) (by decide) (by decide)
  ⟨h.1, h.2.2.2⟩

/-- C2, counterexample: a found session whose `ExpiresAt` is exactly the
current time is reported with `expired = false`, although `now >= expiresAt`
holds. -/
theorem ValidateOrRefresh_at_expiry_instant :
    (exampleEnv 1000 1000 none (Except.ok ⟨200, []⟩)).GetByToken "tok-A" =
        (some (exampleSession 1000), none) ∧
    (exampleSession 1000).ExpiresAt ≤ (exampleEnv 1000 1000 none (Except.ok ⟨200, []⟩)).now ∧
    (ValidateOrRefresh (exampleEnv 1000 1000 none (Except.ok ⟨200, []⟩)) "tok-A"
        "sid=tok-A").1.expired = false := by
  decide

/-- C2, amended: for every found session the `expired` flag returned by
`ValidateOrRefresh` is true exactly when `now` is strictly after `ExpiresAt`;
for a session whose `ExpiresAt` is exactly `now` (the clock not stepping back
before the second reading) the flag is false and exactly one refresh is
attempted, the request being sent once when it can be built. -/
theorem ValidateOrRefresh_expired_flag (env : Env) (sessionID cookieHeader : String)
    (s : Session)
    (hfound : env.GetByToken sessionID = (some s, none)) :
    ((ValidateOrRefresh env sessionID cookieHeader).1.expired = true ↔ s.ExpiresAt < env.now) ∧
    (s.ExpiresAt = env.now → env.now ≤ env.untilNow →
      (ValidateOrRefresh env sessionID cookieHeader).1.expired = false ∧
      refreshAttempts (ValidateOrRefresh env sessionID cookieHeader).2 = 1 ∧
      refreshCalls (ValidateOrRefresh env sessionID cookieHeader).2 =
        if env.NewRequestErr env.RefreshURL = none then 1 else 0) := by
  have hflag := ValidateOrRefresh_flag env sessionID cookieHeader s hfound
  refine ⟨by rw [hflag]; simp, ?_⟩
  intro heq hmono
  have hdue : s.ExpiresAt < env.now ∨ s.ExpiresAt - env.untilNow ≤ 15 * Minute := by
    right
    unfold Minute Second
    omega
  exact ⟨by rw [hflag]; simp [heq],
    ValidateOrRefresh_due_counts env sessionID cookieHeader s hfound hdue⟩

theorem ValidateOrRefresh_expired_flag_witness :
    (ValidateOrRefresh (exampleEnv 1000 1000 none (Except.error "down")) "tok-A"
        "sid=tok-A").1.expired = false ∧
    refreshAttempts (ValidateOrRefresh (exampleEnv 1000 1000 none (Except.error "down")) "tok-A"
        "sid=tok-A").2 = 1 ∧
    refreshCalls (ValidateOrRefresh (exampleEnv 1000 1000 none (Except.error "down")) "tok-A"
        "sid=tok-A").2 = 1 :=
  (ValidateOrRefresh_expired_flag (exampleEnv 1000 1000 none (Except.error "down")) "tok-A"
    "sid=tok-A" (exampleSession 1000) (by rfl)).2 (by rfl) (by decide)

/-- C4, counterexample: the refresh endpoint answers a near-expiry session
with status 204, a 2xx code, and a `Set-Cookie` value; `ValidateOrRefresh`
returns an error and an empty cookie list. -/
theorem ValidateOrRefresh_status_204_is_failure :
    (200 : Int) ≤ 204 ∧ (204 : Int) ≤ 299 ∧
    Header.Values [("Set-Cookie", "sid=new")] "Set-Cookie" = ["sid=new"] ∧
    (ValidateOrRefresh
        (exampleEnv 1000 1000 none (Except.ok ⟨204, [("Set-Cookie", "sid=new")]⟩))
        "tok-A" "sid=tok-A").1 =
      ⟨some (exampleSession 1000), [], false, some "refresh failed: 204"⟩ := by
  decide

/-- C4, amended: for every found session that is expired or near expiry whose
refresh request is answered, `ValidateOrRefresh` returns the stored
(pre-refresh) record and the expired flag, together with no error and the
`Set-Cookie` values of the response, unmodified and in order, if the status is
200; and together with an error and no cookie if the status is anything else,
the other 2xx codes included. -/
theorem ValidateOrRefresh_refresh_success (env : Env) (sessionID cookieHeader : String)
    (s : Session) (resp : Response)
    (hfound : env.GetByToken sessionID = (some s, none))
    (hdue : s.ExpiresAt < env.now ∨ s.ExpiresAt - env.untilNow ≤ 15 * Minute)
    (hbuild : env.NewRequestErr env.RefreshURL = none)
    (hdo : env.Do (refreshRequest env.RefreshURL cookieHeader) = Except.ok resp) :
    (resp.StatusCode = 200 →
      (ValidateOrRefresh env sessionID cookieHeader).1 =
        ⟨some s, resp.Header.Values "Set-Cookie", decide (s.ExpiresAt < env.now), none⟩) ∧
    (resp.StatusCode ≠ 200 →
      (ValidateOrRefresh env sessionID cookieHeader).1 =
        ⟨some s, [], decide (s.ExpiresAt < env.now),
          some ("refresh failed: " ++ toString resp.StatusCode)⟩) := by
  constructor
  · intro hstatus
    rw [ValidateOrRefresh_status_ok env sessionID cookieHeader s resp hfound hdue hbuild hdo
      hstatus]
  · intro hstatus
    rw [ValidateOrRefresh_bad_status env sessionID cookieHeader s resp hfound hdue hbuild hdo
      hstatus]

theorem ValidateOrRefresh_refresh_success_witness :
    (ValidateOrRefresh
        (exampleEnv 1000 2000 none
          (Except.ok ⟨200, [("Set-Cookie", "sid=new"), ("Vary", "Cookie"), ("Set-Cookie", "rt=r2")]⟩))
        "tok-A" "sid=tok-A").1 =
      ⟨some (exampleSession 1000), ["sid=new", "rt=r2"], true, none⟩ ∧
    (ValidateOrRefresh
        (exampleEnv 1000 2000 none (Except.ok ⟨201, [("Set-Cookie", "sid=new")]⟩))
        "tok-A" "sid=tok-A").1 =
      ⟨some (exampleSession 1000), [], true, some "refresh failed: 201"⟩ :=
  ⟨(ValidateOrRefresh_refresh_success
      (exampleEnv 1000 2000 none
        (Except.ok ⟨200, [("Set-Cookie", "sid=new"), ("Vary", "Cookie"), ("Set-Cookie", "rt=r2")]⟩))
      "tok-A" "sid=tok-A" (exampleSession 1000)
      ⟨200, [("Set-Cookie", "sid=new"), ("Vary", "Cookie"), ("Set-Cookie", "rt=r2")]⟩
      (by rfl) (Or.inl (by decide)) (by rfl) (by rfl)).1 (by rfl),
    (ValidateOrRefresh_refresh_success
      (exampleEnv 1000 2000 none (Except.ok ⟨201, [("Set-Cookie", "sid=new")]⟩))
      "tok-A" "sid=tok-A" (exampleSession 1000) ⟨201, [("Set-Cookie", "sid=new")]⟩
      (by rfl) (Or.inl (by decide)) (by rfl) (by rfl)).2 (by decide)⟩

/-- C7: for every found session that is expired or near expiry, if the
refresh request is sent and fails (transport error, or a response whose status
is not 2xx), `ValidateOrRefresh` returns the session record, an empty cookie
list, an error and an `expired` flag equal to the condition computed before the
call (`now` after `ExpiresAt`); one refresh is attempted and the request is
sent exactly once. -/
theorem ValidateOrRefresh_refresh_failure (env : Env) (sessionID cookieHeader : String)
    (s : Session)
    (hfound : env.GetByToken sessionID = (some s, none))
    (hdue : s.ExpiresAt < env.now ∨ s.ExpiresAt - env.untilNow ≤ 15 * Minute)
    (hbuild : env.NewRequestErr env.RefreshURL = none)
    (hfail : (∃ e, env.Do (refreshRequest env.RefreshURL cookieHeader) = Except.error e) ∨
      (∃ resp, env.Do (refreshRequest env.RefreshURL cookieHeader) = Except.ok resp ∧
        (resp.StatusCode < 200 ∨ 299 < resp.StatusCode))) :
    (ValidateOrRefresh env sessionID cookieHeader).1.session = some s ∧
    (ValidateOrRefresh env sessionID cookieHeader).1.setCookies = [] ∧
    (ValidateOrRefresh env sessionID cookieHeader).1.err ≠ none ∧
    (ValidateOrRefresh env sessionID cookieHeader).1.expired = decide (s.ExpiresAt < env.now) ∧
    refreshAttempts (ValidateOrRefresh env sessionID cookieHeader).2 = 1 ∧
    refreshCalls (ValidateOrRefresh env sessionID cookieHeader).2 = 1 := by
  rcases hfail with ⟨e, hd⟩ | ⟨resp, hd, hst⟩
  · rw [ValidateOrRefresh_transport_error env sessionID cookieHeader s e hfound hdue hbuild hd]
    simp [refreshAttempts, refreshCalls]
  · have hne : resp.StatusCode ≠ 200 := by omega
    rw [ValidateOrRefresh_bad_status env sessionID cookieHeader s resp hfound hdue hbuild hd hne]
    simp [refreshAttempts, refreshCalls]

theorem ValidateOrRefresh_refresh_failure_witness :
    (ValidateOrRefresh
        (exampleEnv 1000 2000 none (Except.ok ⟨503, [("Set-Cookie", "sid=new")]⟩))
        "tok-A" "sid=tok-A").1.setCookies = [] ∧
    (ValidateOrRefresh
        (exampleEnv 1000 2000 none (Except.ok ⟨503, [("Set-Cookie", "sid=new")]⟩))
        "tok-A" "sid=tok-A").1.expired = true ∧
    refreshCalls (ValidateOrRefresh
        (exampleEnv 1000 2000 none (Except.ok ⟨503, [("Set-Cookie", "sid=new")]⟩))
        "tok-A" "sid=tok-A").2 = 1 :=
  have h := ValidateOrRefresh_refresh_failure
    (exampleEnv 1000 2000 none (Except.ok ⟨503, [("Set-Cookie", "sid=new")]⟩))
    "tok-A" "sid=tok-A" (exampleSession 1000) (by rfl) (Or.inl (by decide)) (by rfl)
    (Or.inr ⟨⟨503, [("Set-Cookie", "sid=new")]⟩, by rfl, Or.inr (by decide)⟩)
  ⟨h.2.1, h.2.2.2.1, h.2.2.2.2.2⟩

/-! ## The read-only verifier -/

theorem GetSessionValidity_missing (env : Env) (sessionID : String)
    (hstore : env.GetByToken sessionID = (none, none)) :
    GetSessionValidity env sessionID = ((none, none), [Event.GetByToken sessionID]) := by
  simp only [GetSessionValidity, hstore]

theorem GetSessionValidity_expired (env : Env) (sessionID : String) (s : Session)
    (hstore : env.GetByToken sessionID = (some s, none)) (h : s.ExpiresAt < env.now) :
    GetSessionValidity env sessionID = ((none, none), [Event.GetByToken sessionID]) := by
  simp [GetSessionValidity, hstore, After, h]

theorem GetSessionValidity_valid (env : Env) (sessionID : String) (s : Session)
    (hstore : env.GetByToken sessionID = (some s, none)) (h : env.now ≤ s.ExpiresAt) :
    GetSessionValidity env sessionID = ((some s, none), [Event.GetByToken sessionID]) := by
  have h2 : ¬ s.ExpiresAt < env.now := by omega
  simp [GetSessionValidity, hstore, After, h2]

theorem GetSessionValidity_trace (env : Env) (sessionID : String) :
    (GetSessionValidity env sessionID).2 = [Event.GetByToken sessionID] := by
  unfold GetSessionValidity
  split
  · rfl
  · rfl
  · split <;> rfl

/-- The calls of `Verify`: the content type, then either the 401 answer for a
missing cookie, or the store lookup followed by the 401 answer or by the
answer for a valid session. -/
theorem Verify_trace (env : Env) (sessionCookieName : String) (r : Request) :
    Verify env sessionCookieName r =
      [Event.HeaderSet "Content-Type" "application/json", Event.WriteHeader 401,
        Event.Encode [("error", JSONValue.str "missing session"),
          ("valid", JSONValue.bool false)]] ∨
    Verify env sessionCookieName r =
      [Event.HeaderSet "Content-Type" "application/json",
        Event.GetByToken (findSessionID sessionCookieName r.Cookies), Event.WriteHeader 401,
        Event.Encode [("error", JSONValue.str "invalid or expired"),
          ("valid", JSONValue.bool false)]] ∨
    ∃ uid, Verify env sessionCookieName r =
      [Event.HeaderSet "Content-Type" "application/json",
        Event.GetByToken (findSessionID sessionCookieName r.Cookies),
        Event.Encode [("userId", JSONValue.str uid), ("valid", JSONValue.bool true)]] := by
  simp only [Verify]
  by_cases h : findSessionID sessionCookieName r.Cookies = ""
  · left
    rw [if_pos h]
  · rw [if_neg h]
    have htr := GetSessionValidity_trace env (findSessionID sessionCookieName r.Cookies)
    rcases hg : GetSessionValidity env (findSessionID sessionCookieName r.Cookies) with
      ⟨⟨a, b⟩, tr⟩
    rw [hg] at htr
    simp only at htr
    subst htr
    cases a with
    | none => cases b <;> exact Or.inr (Or.inl rfl)
    | some s =>
      cases b with
      | none => exact Or.inr (Or.inr ⟨s.UserID, rfl⟩)
      | some e => exact Or.inr (Or.inl rfl)

/-- C3, counterexample: at the instant `now = ExpiresAt`, where `now <
expiresAt` fails, `GetSessionValidity` still returns the stored session. -/
theorem GetSessionValidity_at_expiry_instant :
    (exampleEnv 1000 1000 none (Except.error "down")).GetByToken "tok-A" =
        (some (exampleSession 1000), none) ∧
    ¬ (exampleEnv 1000 1000 none (Except.error "down")).now < (exampleSession 1000).ExpiresAt ∧
    (GetSessionValidity (exampleEnv 1000 1000 none (Except.error "down")) "tok-A").1 =
      (some (exampleSession 1000), none) := by
  decide

/-- C3, amended: when the store lookup reports no error, `GetSessionValidity`
returns no error, and returns the stored session if and only if a record
exists for the id and `now` is not after `ExpiresAt` (`now <= expiresAt`, the
instant `now = expiresAt` included); when the record is missing or `now` is
strictly after `ExpiresAt` it returns no session. -/
theorem GetSessionValidity_spec (env : Env) (sessionID : String) (r : Option Session)
    (hstore : env.GetByToken sessionID = (r, none)) :
    (GetSessionValidity env sessionID).1.2 = none ∧
    (∀ s, (GetSessionValidity env sessionID).1.1 = some s ↔
      (r = some s ∧ env.now ≤ s.ExpiresAt)) ∧
    ((r = none ∨ ∃ s, r = some s ∧ s.ExpiresAt < env.now) →
      (GetSessionValidity env sessionID).1.1 = none) := by
  cases r with
  | none =>
    rw [GetSessionValidity_missing env sessionID hstore]
    simp
  | some s0 =>
    by_cases h : s0.ExpiresAt < env.now
    · rw [GetSessionValidity_expired env sessionID s0 hstore h]
      refine ⟨rfl, ?_, fun _ => rfl⟩
      intro s
      constructor
      · intro hc
        cases hc
      · rintro ⟨hs, hle⟩
        cases hs
        omega
    · rw [GetSessionValidity_valid env sessionID s0 hstore (by omega)]
      refine ⟨rfl, ?_, ?_⟩
      · intro s
        constructor
        · intro hc
          have hs : s0 = s := by simpa using hc
          subst hs
          exact ⟨rfl, by omega⟩
        · rintro ⟨hs, _⟩
          simpa using hs
      · rintro (hc | ⟨s, hs, hlt⟩)
        · cases hc
        · cases hs
          exact absurd hlt h

theorem GetSessionValidity_spec_witness :
    (GetSessionValidity (exampleEnv 1000 1000 none (Except.error "down")) "tok-A").1.2 = none ∧
    (GetSessionValidity (exampleEnv 1000 1000 none (Except.error "down")) "tok-A").1.1 =
      some (exampleSession 1000) :=
  have h := GetSessionValidity_spec (exampleEnv 1000 1000 none (Except.error "down")) "tok-A"
    (some (exampleSession 1000)) (by rfl)
  ⟨h.1, (h.2.1 (exampleSession 1000)).mpr ⟨rfl, by decide⟩⟩

/-- C9: whatever the store holds for the id and whatever the time,
`GetSessionValidity` only looks the session up (no refresh is attempted, no
request is sent to the refresh endpoint, no cookie is emitted), and neither
does the `Verify` handler built on it; called at any sequence of instants at
which the stored session is not expired, with the store unchanged, it returns
the same record every time. -/
theorem GetSessionValidity_read_only (env : Env) (sessionCookieName sessionID : String)
    (r : Request) :
    (GetSessionValidity env sessionID).2 = [Event.GetByToken sessionID] ∧
    refreshAttempts (GetSessionValidity env sessionID).2 = 0 ∧
    refreshCalls (GetSessionValidity env sessionID).2 = 0 ∧
    addedSetCookies (GetSessionValidity env sessionID).2 = [] ∧
    refreshAttempts (Verify env sessionCookieName r) = 0 ∧
    refreshCalls (Verify env sessionCookieName r) = 0 ∧
    addedSetCookies (Verify env sessionCookieName r) = [] ∧
    (∀ (s : Session) (nows : List Int), env.GetByToken sessionID = (some s, none) →
      (∀ t ∈ nows, t ≤ s.ExpiresAt) →
      nows.map (fun t => (GetSessionValidity { env with now := t } sessionID).1) =
        List.replicate nows.length (some s, none)) := by
  refine ⟨GetSessionValidity_trace env sessionID, ?_, ?_, ?_, ?_, ?_, ?_, ?_⟩
  · rw [GetSessionValidity_trace]; rfl
  · rw [GetSessionValidity_trace]; rfl
  · rw [GetSessionValidity_trace]; rfl
  · rcases Verify_trace env sessionCookieName r with h | h | ⟨uid, h⟩ <;> rw [h] <;> rfl
  · rcases Verify_trace env sessionCookieName r with h | h | ⟨uid, h⟩ <;> rw [h] <;> rfl
  · rcases Verify_trace env sessionCookieName r with h | h | ⟨uid, h⟩ <;> rw [h] <;>
      simp [addedSetCookies]
  · intro s nows hfound hvalid
    induction nows with
    | nil => rfl
    | cons t ts ih =>
      have ht : t ≤ s.ExpiresAt := hvalid t (List.mem_cons_self t ts)
      have hts : ∀ u ∈ ts, u ≤ s.ExpiresAt := fun u hu => hvalid u (List.mem_cons_of_mem t hu)
      have hcall : (GetSessionValidity { env with now := t } sessionID).1 = (some s, none) := by
        rw [GetSessionValidity_valid { env with now := t } sessionID s hfound ht]
      simp only [List.map_cons, List.length_cons, List.replicate_succ, hcall, ih hts]

theorem GetSessionValidity_read_only_witness :
    refreshCalls (Verify (exampleEnv 1000 2000 none (Except.error "down")) "sid"
      exampleRequest) = 0 ∧
    [0, 500, 1000].map (fun t => (GetSessionValidity
        { exampleEnv 1000 2000 none (Except.error "down") with now := t } "tok-A").1) =
      List.replicate 3 (some (exampleSession 1000), none) :=
  have h := GetSessionValidity_read_only (exampleEnv 1000 2000 none (Except.error "down"))
    "sid" "tok-A" exampleRequest
  ⟨h.2.2.2.2.2.1, h.2.2.2.2.2.2.2 (exampleSession 1000) [0, 500, 1000] (by rfl) (by decide)⟩

/-! ## The auth gate -/

/-- With a non-empty session token the gate applies its policy to the result
of `ValidateOrRefresh` for that token and the request's `Cookie` header. -/
theorem RequireAuth_with_token (env : Env) (sessionCookieName : String) (r : Request)
    (hne : findSessionID sessionCookieName r.Cookies ≠ "") :
    RequireAuth env sessionCookieName r =
      gatePolicy (ValidateOrRefresh env (findSessionID sessionCookieName r.Cookies)
        (r.Header.Get "Cookie")) := by
  simp only [RequireAuth]
  rw [if_neg hne]

/-- The gate policy on a failed validation: 401 `unauthorized` after the calls
already made, nothing else. -/
theorem gatePolicy_unauthorized (res : VResult × List Event)
    (h : res.1.err ≠ none ∨ res.1.session = none) :
    gatePolicy res = res.2 ++ deny "unauthorized" := by
  unfold gatePolicy
  split
  · rfl
  · rfl
  · rename_i rec herr hrec
    rcases h with h | h
    · exact absurd herr h
    · rw [hrec] at h
      cases h

theorem addedSetCookies_map (cs : List String) (rest : List Event) :
    addedSetCookies (cs.map (fun sc => Event.HeaderAdd "Set-Cookie" sc) ++ rest) =
      cs ++ addedSetCookies rest := by
  induction cs with
  | nil => rfl
  | cons c cs ih => simp [addedSetCookies, ih]

theorem servedUser_map (cs : List String) (rest : List Event) :
    servedUser (cs.map (fun sc => Event.HeaderAdd "Set-Cookie" sc) ++ rest) =
      servedUser rest := by
  induction cs with
  | nil => rfl
  | cons c cs ih => simp [servedUser, ih]

theorem writtenStatus_map (cs : List String) (rest : List Event) :
    writtenStatus (cs.map (fun sc => Event.HeaderAdd "Set-Cookie" sc) ++ rest) =
      writtenStatus rest := by
  induction cs with
  | nil => rfl
  | cons c cs ih => simp [writtenStatus, ih]

theorem writtenReason_map (cs : List String) (rest : List Event) :
    writtenReason (cs.map (fun sc => Event.HeaderAdd "Set-Cookie" sc) ++ rest) =
      writtenReason rest := by
  induction cs with
  | nil => rfl
  | cons c cs ih => simp [writtenReason, ih]

/-- The first cookie with the configured name decides the session token. -/
theorem findSessionID_eq_find (sessionCookieName : String) (cs : List Cookie) :
    findSessionID sessionCookieName cs =
      match cs.find? (fun c => decide (c.Name = sessionCookieName)) with
      | some c => c.Value
      | none => "" := by
  induction cs with
  | nil => rfl
  | cons c cs ih =>
    by_cases h : c.Name = sessionCookieName
    · simp [findSessionID, List.find?, h]
    · simp [findSessionID, List.find?, h, ih]

theorem writtenReason_deny (reason : String) : writtenReason (deny reason) = some reason := by
  simp [deny, writtenReason, List.lookup]

theorem writtenStatus_deny (reason : String) : writtenStatus (deny reason) = some 401 := rfl

theorem servedUser_deny (reason : String) : servedUser (deny reason) = none := rfl

theorem addedSetCookies_deny (reason : String) : addedSetCookies (deny reason) = [] := rfl

/-- The calls of `ValidateOrRefresh` write nothing to the response and do not
invoke the protected handler. -/
theorem ValidateOrRefresh_calls_silent (env : Env) (sessionID cookieHeader : String)
    (rest : List Event) :
    writtenReason ((ValidateOrRefresh env sessionID cookieHeader).2 ++ rest) =
      writtenReason rest ∧
    writtenStatus ((ValidateOrRefresh env sessionID cookieHeader).2 ++ rest) =
      writtenStatus rest ∧
    servedUser ((ValidateOrRefresh env sessionID cookieHeader).2 ++ rest) = servedUser rest ∧
    addedSetCookies ((ValidateOrRefresh env sessionID cookieHeader).2 ++ rest) =
      addedSetCookies rest := by
  rcases ValidateOrRefresh_trace env sessionID cookieHeader with h | h | h <;> rw [h] <;>
    exact ⟨rfl, rfl, rfl, rfl⟩

/-- The reason written by the gate once a token was found is never
`missing session`. -/
theorem gatePolicy_reason (env : Env) (sessionID cookieHeader : String) :
    writtenReason (gatePolicy (ValidateOrRefresh env sessionID cookieHeader)) ≠
      some "missing session" := by
  unfold gatePolicy
  split
  · rw [(ValidateOrRefresh_calls_silent env sessionID cookieHeader _).1, writtenReason_deny]
    decide
  · rw [(ValidateOrRefresh_calls_silent env sessionID cookieHeader _).1, writtenReason_deny]
    decide
  · split
    · rw [List.append_assoc, (ValidateOrRefresh_calls_silent env sessionID cookieHeader _).1,
        writtenReason_map, writtenReason_deny]
      decide
    · rw [List.append_assoc, (ValidateOrRefresh_calls_silent env sessionID cookieHeader _).1,
        writtenReason_map]
      simp [writtenReason]

/-- C1, failing input: the stored session expired (`now` is after
`ExpiresAt`), the refresh endpoint answers 200 without any `Set-Cookie` value;
`ValidateOrRefresh` reports `expired = true` and no error, and the gate writes
no 401 but invokes the protected handler with the user id of the expired
record. -/
theorem RequireAuth_serves_expired_session :
    (ValidateOrRefresh (exampleEnv 1000 2000 none (Except.ok ⟨200, []⟩)) "tok-A"
        (exampleRequest.Header.Get "Cookie")).1 = ⟨some (exampleSession 1000), [], true, none⟩ ∧
    RequireAuth (exampleEnv 1000 2000 none (Except.ok ⟨200, []⟩)) "sid" exampleRequest =
      [Event.GetByToken "tok-A", Event.NewRequest "POST" "http://next.local/api/refresh",
        Event.Do ⟨"POST", "http://next.local/api/refresh", [("Cookie", "theme=dark; sid=tok-A")]⟩,
        Event.ServeHTTP "user-1"] ∧
    writtenStatus (RequireAuth (exampleEnv 1000 2000 none (Except.ok ⟨200, []⟩)) "sid"
      exampleRequest) = none ∧
    servedUser (RequireAuth (exampleEnv 1000 2000 none (Except.ok ⟨200, []⟩)) "sid"
      exampleRequest) = some "user-1" := by
  decide

/-- For a request whose token maps to an expired session, the gate invokes the
protected handler exactly when the refresh succeeded without any `Set-Cookie`
value; in every other outcome it answers 401. -/
theorem RequireAuth_expired_policy (env : Env) (sessionCookieName : String) (r : Request)
    (s : Session)
    (hne : findSessionID sessionCookieName r.Cookies ≠ "")
    (hfound : env.GetByToken (findSessionID sessionCookieName r.Cookies) = (some s, none))
    (hexpired : s.ExpiresAt < env.now) :
    (servedUser (RequireAuth env sessionCookieName r) ≠ none ↔
      ((ValidateOrRefresh env (findSessionID sessionCookieName r.Cookies) (r.Header.Get "Cookie")).1.err =
          none ∧
        (ValidateOrRefresh env (findSessionID sessionCookieName r.Cookies)
          (r.Header.Get "Cookie")).1.setCookies = [])) ∧
    (servedUser (RequireAuth env sessionCookieName r) = none →
      writtenStatus (RequireAuth env sessionCookieName r) = some 401) := by
  rw [RequireAuth_with_token env sessionCookieName r hne]
  have hdue : s.ExpiresAt < env.now ∨ s.ExpiresAt - env.untilNow ≤ 15 * Minute :=
    Or.inl hexpired
  cases hb : env.NewRequestErr env.RefreshURL with
  | some e =>
    rw [ValidateOrRefresh_build_error env _ (r.Header.Get "Cookie") s e hfound hdue hb]
    simp [gatePolicy, deny, servedUser, writtenStatus]
  | none =>
    cases hd : env.Do (refreshRequest env.RefreshURL (r.Header.Get "Cookie")) with
    | error e =>
      rw [ValidateOrRefresh_transport_error env _ (r.Header.Get "Cookie") s e hfound hdue hb hd]
      simp [gatePolicy, deny, servedUser, writtenStatus]
    | ok resp =>
      by_cases hst : resp.StatusCode = 200
      · rw [ValidateOrRefresh_status_ok env _ (r.Header.Get "Cookie") s resp hfound hdue hb hd hst]
        cases hcs : resp.Header.Values "Set-Cookie" with
        | nil => simp [gatePolicy, hexpired, servedUser]
        | cons c cs =>
          simp [gatePolicy, hexpired, deny, servedUser, writtenStatus, servedUser_map,
            writtenStatus_map]
      · rw [ValidateOrRefresh_bad_status env _ (r.Header.Get "Cookie") s resp hfound hdue hb hd hst]
        simp [gatePolicy, deny, servedUser, writtenStatus]

/-- C6, counterexample: the stored session expires in 5 minutes, the refresh
request is sent once and answered with status 204, a 2xx code, and a
`Set-Cookie` value; `ValidateOrRefresh` reports `expired = false`, and the gate
answers 401 `unauthorized`, adds no cookie and does not invoke the protected
handler. -/
theorem RequireAuth_near_expiry_status_204 :
    (0 : Int) < (exampleSession 900000000000).ExpiresAt -
      (exampleEnv 900000000000 600000000000 none
        (Except.ok ⟨204, [("Set-Cookie", "sid=new")]⟩)).now ∧
    (exampleSession 900000000000).ExpiresAt -
      (exampleEnv 900000000000 600000000000 none
        (Except.ok ⟨204, [("Set-Cookie", "sid=new")]⟩)).now ≤ 15 * Minute ∧
    (200 : Int) ≤ 204 ∧ (204 : Int) ≤ 299 ∧
    (ValidateOrRefresh
      (exampleEnv 900000000000 600000000000 none
        (Except.ok ⟨204, [("Set-Cookie", "sid=new")]⟩))
      "tok-A" "theme=dark; sid=tok-A").1.expired = false ∧
    refreshCalls (ValidateOrRefresh
      (exampleEnv 900000000000 600000000000 none
        (Except.ok ⟨204, [("Set-Cookie", "sid=new")]⟩))
      "tok-A" "theme=dark; sid=tok-A").2 = 1 ∧
    writtenStatus (RequireAuth
      (exampleEnv 900000000000 600000000000 none
        (Except.ok ⟨204, [("Set-Cookie", "sid=new")]⟩))
      "sid" exampleRequest) = some 401 ∧
    writtenReason (RequireAuth
      (exampleEnv 900000000000 600000000000 none
        (Except.ok ⟨204, [("Set-Cookie", "sid=new")]⟩))
      "sid" exampleRequest) = some "unauthorized" ∧
    addedSetCookies (RequireAuth
      (exampleEnv 900000000000 600000000000 none
        (Except.ok ⟨204, [("Set-Cookie", "sid=new")]⟩))
      "sid" exampleRequest) = [] ∧
    servedUser (RequireAuth
      (exampleEnv 900000000000 600000000000 none
        (Except.ok ⟨204, [("Set-Cookie", "sid=new")]⟩))
      "sid" exampleRequest) = none := by
  decide

/-- C6, amended: for a request whose token maps to a found session with
`0 < ExpiresAt - now` and `ExpiresAt - now <= 15 minutes` at the clock readings
of the call (the boundary of exactly 15 minutes included), `ValidateOrRefresh`
reports `expired = false` and attempts exactly one refresh (the request is
sent once whenever it can be built); when that call is answered with status
200 the gate writes no 401, invokes the protected handler with the record's
`UserID` bound, and adds every `Set-Cookie` value of the answer to the
response, unchanged and in order; when it is answered with any other status,
the other 2xx codes included, the gate answers 401 `unauthorized`, adds no
cookie and does not invoke the protected handler. -/
theorem RequireAuth_near_expiry (env : Env) (sessionCookieName : String) (r : Request)
    (s : Session)
    (hne : findSessionID sessionCookieName r.Cookies ≠ "")
    (hfound : env.GetByToken (findSessionID sessionCookieName r.Cookies) = (some s, none))
    (hnow : 0 < s.ExpiresAt - env.now)
    (huntil : s.ExpiresAt - env.untilNow ≤ 15 * Minute) :
    (ValidateOrRefresh env (findSessionID sessionCookieName r.Cookies)
      (r.Header.Get "Cookie")).1.expired = false ∧
    refreshAttempts (ValidateOrRefresh env (findSessionID sessionCookieName r.Cookies)
      (r.Header.Get "Cookie")).2 = 1 ∧
    refreshCalls (ValidateOrRefresh env (findSessionID sessionCookieName r.Cookies)
      (r.Header.Get "Cookie")).2 = (if env.NewRequestErr env.RefreshURL = none then 1 else 0) ∧
    (∀ resp : Response, env.NewRequestErr env.RefreshURL = none →
      env.Do (refreshRequest env.RefreshURL (r.Header.Get "Cookie")) = Except.ok resp →
      resp.StatusCode = 200 →
      RequireAuth env sessionCookieName r =
        [Event.GetByToken (findSessionID sessionCookieName r.Cookies),
          Event.NewRequest "POST" env.RefreshURL,
          Event.Do (refreshRequest env.RefreshURL (r.Header.Get "Cookie"))] ++
        (resp.Header.Values "Set-Cookie").map (fun sc => Event.HeaderAdd "Set-Cookie" sc) ++
        [Event.ServeHTTP s.UserID] ∧
      writtenStatus (RequireAuth env sessionCookieName r) = none ∧
      servedUser (RequireAuth env sessionCookieName r) = some s.UserID ∧
      addedSetCookies (RequireAuth env sessionCookieName r) =
        resp.Header.Values "Set-Cookie") ∧
    (∀ resp : Response, env.NewRequestErr env.RefreshURL = none →
      env.Do (refreshRequest env.RefreshURL (r.Header.Get "Cookie")) = Except.ok resp →
      resp.StatusCode ≠ 200 →
      RequireAuth env sessionCookieName r =
        [Event.GetByToken (findSessionID sessionCookieName r.Cookies),
          Event.NewRequest "POST" env.RefreshURL,
          Event.Do (refreshRequest env.RefreshURL (r.Header.Get "Cookie"))] ++
        deny "unauthorized" ∧
      writtenStatus (RequireAuth env sessionCookieName r) = some 401 ∧
      writtenReason (RequireAuth env sessionCookieName r) = some "unauthorized" ∧
      servedUser (RequireAuth env sessionCookieName r) = none ∧
      addedSetCookies (RequireAuth env sessionCookieName r) = []) := by
  have hdue : s.ExpiresAt < env.now ∨ s.ExpiresAt - env.untilNow ≤ 15 * Minute :=
    Or.inr huntil
  have hlt : ¬ s.ExpiresAt < env.now := by omega
  have hcounts := ValidateOrRefresh_due_counts env _ (r.Header.Get "Cookie") s hfound hdue
  refine ⟨?_, hcounts.1, hcounts.2, ?_, ?_⟩
  · rw [ValidateOrRefresh_flag env _ (r.Header.Get "Cookie") s hfound]
    simp [hlt]
  · intro resp hb hd hst
    have htrace : RequireAuth env sessionCookieName r =
        [Event.GetByToken (findSessionID sessionCookieName r.Cookies),
          Event.NewRequest "POST" env.RefreshURL,
          Event.Do (refreshRequest env.RefreshURL (r.Header.Get "Cookie"))] ++
        (resp.Header.Values "Set-Cookie").map (fun sc => Event.HeaderAdd "Set-Cookie" sc) ++
        [Event.ServeHTTP s.UserID] := by
      rw [RequireAuth_with_token env sessionCookieName r hne,
        ValidateOrRefresh_status_ok env _ (r.Header.Get "Cookie") s resp hfound hdue hb hd hst]
      simp [gatePolicy, hlt]
    refine ⟨htrace, ?_, ?_, ?_⟩
    · rw [htrace, List.append_assoc]
      show writtenStatus ((resp.Header.Values "Set-Cookie").map
        (fun sc => Event.HeaderAdd "Set-Cookie" sc) ++ [Event.ServeHTTP s.UserID]) = none
      rw [writtenStatus_map]
      rfl
    · rw [htrace, List.append_assoc]
      show servedUser ((resp.Header.Values "Set-Cookie").map
        (fun sc => Event.HeaderAdd "Set-Cookie" sc) ++ [Event.ServeHTTP s.UserID]) =
          some s.UserID
      rw [servedUser_map]
      rfl
    · rw [htrace, List.append_assoc]
      show addedSetCookies ((resp.Header.Values "Set-Cookie").map
        (fun sc => Event.HeaderAdd "Set-Cookie" sc) ++ [Event.ServeHTTP s.UserID]) =
          resp.Header.Values "Set-Cookie"
      rw [addedSetCookies_map]
      exact List.append_nil _
  · intro resp hb hd hst
    have htrace : RequireAuth env sessionCookieName r =
        [Event.GetByToken (findSessionID sessionCookieName r.Cookies),
          Event.NewRequest "POST" env.RefreshURL,
          Event.Do (refreshRequest env.RefreshURL (r.Header.Get "Cookie"))] ++
        deny "unauthorized" := by
      rw [RequireAuth_with_token env sessionCookieName r hne,
        ValidateOrRefresh_bad_status env _ (r.Header.Get "Cookie") s resp hfound hdue hb hd hst]
      exact gatePolicy_unauthorized _ (Or.inl (by simp))
    refine ⟨htrace, ?_, ?_, ?_, ?_⟩
    · rw [htrace]
      rfl
    · rw [htrace]
      exact writtenReason_deny "unauthorized"
    · rw [htrace]
      rfl
    · rw [htrace]
      rfl

theorem RequireAuth_near_expiry_witness :
    (ValidateOrRefresh
        (exampleEnv 900000000000 0 none
          (Except.ok ⟨200, [("Set-Cookie", "sid=new"), ("Set-Cookie", "rt=r2")]⟩))
        "tok-A" "theme=dark; sid=tok-A").1.expired = false ∧
    servedUser (RequireAuth
        (exampleEnv 900000000000 0 none
          (Except.ok ⟨200, [("Set-Cookie", "sid=new"), ("Set-Cookie", "rt=r2")]⟩))
        "sid" exampleRequest) = some "user-1" ∧
    addedSetCookies (RequireAuth
        (exampleEnv 900000000000 0 none
          (Except.ok ⟨200, [("Set-Cookie", "sid=new"), ("Set-Cookie", "rt=r2")]⟩))
        "sid" exampleRequest) = ["sid=new", "rt=r2"] ∧
    writtenReason (RequireAuth
        (exampleEnv 900000000000 0 none (Except.ok ⟨201, [("Set-Cookie", "sid=new")]⟩))
        "sid" exampleRequest) = some "unauthorized" :=
  have h := RequireAuth_near_expiry
    (exampleEnv 900000000000 0 none
      (Except.ok ⟨200, [("Set-Cookie", "sid=new"), ("Set-Cookie", "rt=r2")]⟩))
    "sid" exampleRequest (exampleSession 900000000000) (by decide) (by rfl) (by decide)
    (by decide)
  have h2 := h.2.2.2.1 ⟨200, [("Set-Cookie", "sid=new"), ("Set-Cookie", "rt=r2")]⟩ (by rfl)
    (by rfl) (by rfl)
  have h3 := (RequireAuth_near_expiry
    (exampleEnv 900000000000 0 none (Except.ok ⟨201, [("Set-Cookie", "sid=new")]⟩))
    "sid" exampleRequest (exampleSession 900000000000) (by decide) (by rfl) (by decide)
    (by decide)).2.2.2.2 ⟨201, [("Set-Cookie", "sid=new")]⟩ (by rfl) (by rfl) (by decide)
  ⟨h.1, h2.2.2.1, h2.2.2.2, h3.2.2.1⟩

/-- C8: for a request carrying a session token, if the store has no record
for it (`ValidateOrRefresh` then returns no session, no cookies,
`expired = false`, no error, and only looks the session up), or the store
lookup fails, or the refresh fails for a found session that is expired or near
expiry (the request cannot be built, cannot be sent, or is answered with a
status other than 200), the gate answers 401 with reason `unauthorized`, adds
no `Set-Cookie` value and does not invoke the protected handler. -/
theorem RequireAuth_unauthorized (env : Env) (sessionCookieName : String) (r : Request)
    (hne : findSessionID sessionCookieName r.Cookies ≠ "")
    (hcase : env.GetByToken (findSessionID sessionCookieName r.Cookies) = (none, none) ∨
      (∃ x e, env.GetByToken (findSessionID sessionCookieName r.Cookies) = (x, some e)) ∨
      (∃ s, env.GetByToken (findSessionID sessionCookieName r.Cookies) = (some s, none) ∧
        (s.ExpiresAt < env.now ∨ s.ExpiresAt - env.untilNow ≤ 15 * Minute) ∧
        ((∃ e, env.NewRequestErr env.RefreshURL = some e) ∨
          (env.NewRequestErr env.RefreshURL = none ∧
            ((∃ e, env.Do (refreshRequest env.RefreshURL (r.Header.Get "Cookie")) = Except.error e) ∨
              ∃ resp, env.Do (refreshRequest env.RefreshURL (r.Header.Get "Cookie")) = Except.ok resp ∧
                resp.StatusCode ≠ 200))))) :
    (env.GetByToken (findSessionID sessionCookieName r.Cookies) = (none, none) →
      ValidateOrRefresh env (findSessionID sessionCookieName r.Cookies) (r.Header.Get "Cookie") =
        (⟨none, [], false, none⟩,
          [Event.GetByToken (findSessionID sessionCookieName r.Cookies)])) ∧
    RequireAuth env sessionCookieName r =
      (ValidateOrRefresh env (findSessionID sessionCookieName r.Cookies) (r.Header.Get "Cookie")).2 ++
        deny "unauthorized" ∧
    writtenStatus (RequireAuth env sessionCookieName r) = some 401 ∧
    writtenReason (RequireAuth env sessionCookieName r) = some "unauthorized" ∧
    addedSetCookies (RequireAuth env sessionCookieName r) = [] ∧
    servedUser (RequireAuth env sessionCookieName r) = none := by
  have hfail : (ValidateOrRefresh env (findSessionID sessionCookieName r.Cookies)
        (r.Header.Get "Cookie")).1.err ≠ none ∨
      (ValidateOrRefresh env (findSessionID sessionCookieName r.Cookies)
        (r.Header.Get "Cookie")).1.session = none := by
    rcases hcase with h | ⟨x, e, h⟩ | ⟨s, hfound, hdue, hb | ⟨hb, hd | hd⟩⟩
    · rw [ValidateOrRefresh_missing env _ (r.Header.Get "Cookie") h]
      exact Or.inr rfl
    · rw [ValidateOrRefresh_store_error env _ (r.Header.Get "Cookie") x e h]
      exact Or.inr rfl
    · obtain ⟨e, hb⟩ := hb
      rw [ValidateOrRefresh_build_error env _ (r.Header.Get "Cookie") s e hfound hdue hb]
      exact Or.inl (by simp)
    · obtain ⟨e, hd⟩ := hd
      rw [ValidateOrRefresh_transport_error env _ (r.Header.Get "Cookie") s e hfound hdue hb hd]
      exact Or.inl (by simp)
    · obtain ⟨resp, hd, hst⟩ := hd
      rw [ValidateOrRefresh_bad_status env _ (r.Header.Get "Cookie") s resp hfound hdue hb hd hst]
      exact Or.inl (by simp)
  have htrace : RequireAuth env sessionCookieName r =
      (ValidateOrRefresh env (findSessionID sessionCookieName r.Cookies) (r.Header.Get "Cookie")).2 ++
        deny "unauthorized" := by
    rw [RequireAuth_with_token env sessionCookieName r hne]
    exact gatePolicy_unauthorized _ hfail
  have hobs := ValidateOrRefresh_calls_silent env (findSessionID sessionCookieName r.Cookies)
    (r.Header.Get "Cookie") (deny "unauthorized")
  refine ⟨fun h => ValidateOrRefresh_missing env _ (r.Header.Get "Cookie") h, htrace, ?_, ?_, ?_, ?_⟩
  · rw [htrace, hobs.2.1, writtenStatus_deny]
  · rw [htrace, hobs.1, writtenReason_deny]
  · rw [htrace, hobs.2.2.2, addedSetCookies_deny]
  · rw [htrace, hobs.2.2.1, servedUser_deny]

theorem RequireAuth_unauthorized_witness :
    writtenStatus (RequireAuth
        (exampleEnv 1000 2000 none (Except.ok ⟨500, [("Set-Cookie", "sid=new")]⟩))
        "sid" exampleRequest) = some 401 ∧
    writtenReason (RequireAuth
        (exampleEnv 1000 2000 none (Except.ok ⟨500, [("Set-Cookie", "sid=new")]⟩))
        "sid" exampleRequest) = some "unauthorized" ∧
    addedSetCookies (RequireAuth
        (exampleEnv 1000 2000 none (Except.ok ⟨500, [("Set-Cookie", "sid=new")]⟩))
        "sid" exampleRequest) = [] ∧
    servedUser (RequireAuth
        (exampleEnv 1000 2000 none (Except.ok ⟨500, [("Set-Cookie", "sid=new")]⟩))
        "sid" exampleRequest) = none :=
  (RequireAuth_unauthorized
    (exampleEnv 1000 2000 none (Except.ok ⟨500, [("Set-Cookie", "sid=new")]⟩))
    "sid" exampleRequest (by decide)
    (Or.inr (Or.inr ⟨exampleSession 1000, by rfl, Or.inl (by decide),
      Or.inr ⟨by rfl, Or.inr ⟨⟨500, [("Set-Cookie", "sid=new")]⟩, by rfl, by decide⟩⟩⟩))).2.2

/-- The token is empty exactly when no cookie has the configured name or the
first such cookie has an empty value. -/
theorem findSessionID_eq_empty_iff (sessionCookieName : String) (cs : List Cookie) :
    findSessionID sessionCookieName cs = "" ↔
      ∀ c, cs.find? (fun c => decide (c.Name = sessionCookieName)) = some c → c.Value = "" := by
  rw [findSessionID_eq_find]
  cases h : cs.find? (fun c => decide (c.Name = sessionCookieName)) with
  | none => simp
  | some c => simp

/-- Go `h.Get` returns the first of the values kept under the key. -/
theorem Header.Get_eq_first (h : Header) (key : String) :
    (∀ line rest, h.Values key = line :: rest → h.Get key = line) ∧
    (h.Values key = [] → h.Get key = "") := by
  constructor
  · intro line rest hv
    simp only [Header.Get, hv]
  · intro hv
    simp only [Header.Get, hv]

/-- C10, counterexample: first, a request that carries a cookie with the
configured name `sid`, of empty value (header `Cookie: sid=`), is answered 401
with reason `missing session`; second, for a request with the two header lines
`Cookie: theme=dark` and `Cookie: sid=tok-A` the gate looks up the token
`tok-A` and forwards to the refresh endpoint the header `Cookie: theme=dark`,
the first line only and not the full cookie state of the request. -/
theorem RequireAuth_cookie_header_divergences :
    ((∃ c ∈ emptyValueRequest.Cookies, c.Name = "sid") ∧
      writtenStatus (RequireAuth (exampleEnv 1000 0 none (Except.error "down")) "sid"
        emptyValueRequest) = some 401 ∧
      writtenReason (RequireAuth (exampleEnv 1000 0 none (Except.error "down")) "sid"
        emptyValueRequest) = some "missing session") ∧
    (twoLineRequest.Header.Values "Cookie" = ["theme=dark", "sid=tok-A"] ∧
      twoLineRequest.Header.Get "Cookie" = "theme=dark" ∧
      RequireAuth (exampleEnv 1000 2000 none (Except.error "down")) "sid" twoLineRequest =
        [Event.GetByToken "tok-A", Event.NewRequest "POST" "http://next.local/api/refresh",
          Event.Do ⟨"POST", "http://next.local/api/refresh", [("Cookie", "theme=dark")]⟩,
          Event.WriteHeader 401, Event.Encode [("error", JSONValue.str "unauthorized")]]) := by
  decide

/-- C10, amended: the gate answers 401 with reason `missing session` if and
only if the request carries no cookie with the configured session cookie name
or the first such cookie has an empty value; in that case it makes no other
call (no cookie is set, no store lookup, no refresh), and in every other case
it applies its policy to `ValidateOrRefresh` called with the value of the first
such cookie as the token and, as the forwarded header, the value of
`r.Header.Get("Cookie")`: the first `Cookie` line of the request (the empty
string when there is none), which is the full cookie header exactly when the
request has a single `Cookie` line. -/
theorem RequireAuth_missing_session (env : Env) (sessionCookieName : String) (r : Request) :
    (writtenReason (RequireAuth env sessionCookieName r) = some "missing session" ↔
      ∀ c, r.Cookies.find? (fun c => decide (c.Name = sessionCookieName)) = some c →
        c.Value = "") ∧
    ((∀ c ∈ r.Cookies, c.Name ≠ sessionCookieName) →
      writtenReason (RequireAuth env sessionCookieName r) = some "missing session") ∧
    ((∀ c, r.Cookies.find? (fun c => decide (c.Name = sessionCookieName)) = some c →
        c.Value = "") →
      RequireAuth env sessionCookieName r = deny "missing session" ∧
      writtenStatus (RequireAuth env sessionCookieName r) = some 401 ∧
      addedSetCookies (RequireAuth env sessionCookieName r) = [] ∧
      storeLookups (RequireAuth env sessionCookieName r) = 0 ∧
      refreshAttempts (RequireAuth env sessionCookieName r) = 0 ∧
      refreshCalls (RequireAuth env sessionCookieName r) = 0) ∧
    (∀ c, r.Cookies.find? (fun c => decide (c.Name = sessionCookieName)) = some c →
      c.Value ≠ "" →
      (∀ line rest, r.Header.Values "Cookie" = line :: rest →
        RequireAuth env sessionCookieName r =
          gatePolicy (ValidateOrRefresh env c.Value line)) ∧
      (r.Header.Values "Cookie" = [] →
        RequireAuth env sessionCookieName r =
          gatePolicy (ValidateOrRefresh env c.Value ""))) := by
  have hmissing : findSessionID sessionCookieName r.Cookies = "" →
      RequireAuth env sessionCookieName r = deny "missing session" := by
    intro h
    simp only [RequireAuth]
    rw [if_pos h]
  have hiff : writtenReason (RequireAuth env sessionCookieName r) = some "missing session" ↔
      findSessionID sessionCookieName r.Cookies = "" := by
    constructor
    · intro hreason
      by_contra hne
      rw [RequireAuth_with_token env sessionCookieName r hne] at hreason
      exact gatePolicy_reason env _ (r.Header.Get "Cookie") hreason
    · intro h
      rw [hmissing h, writtenReason_deny]
  refine ⟨?_, ?_, ?_, ?_⟩
  · rw [hiff, findSessionID_eq_empty_iff]
  · intro hnone
    rw [hiff, findSessionID_eq_empty_iff]
    intro c hc
    have hmem := List.mem_of_find?_eq_some hc
    have hname := List.find?_some hc
    exact absurd (of_decide_eq_true hname) (hnone c hmem)
  · intro h
    rw [hmissing ((findSessionID_eq_empty_iff sessionCookieName r.Cookies).mpr h)]
    exact ⟨rfl, rfl, rfl, rfl, rfl, rfl⟩
  · intro c hc hval
    have htok : findSessionID sessionCookieName r.Cookies = c.Value := by
      rw [findSessionID_eq_find, hc]
    have hcall : RequireAuth env sessionCookieName r =
        gatePolicy (ValidateOrRefresh env c.Value (r.Header.Get "Cookie")) := by
      rw [RequireAuth_with_token env sessionCookieName r (by rw [htok]; exact hval), htok]
    constructor
    · intro line rest hv
      rw [hcall, (Header.Get_eq_first r.Header "Cookie").1 line rest hv]
    · intro hv
      rw [hcall, (Header.Get_eq_first r.Header "Cookie").2 hv]

theorem RequireAuth_missing_session_witness :
    RequireAuth (exampleEnv 1000 0 none (Except.error "down")) "sid" noSessionRequest =
      deny "missing session" ∧
    RequireAuth (exampleEnv 1000 0 none (Except.error "down")) "sid" exampleRequest =
      gatePolicy (ValidateOrRefresh (exampleEnv 1000 0 none (Except.error "down")) "tok-A"
        "theme=dark; sid=tok-A") ∧
    RequireAuth (exampleEnv 1000 0 none (Except.error "down")) "sid" twoLineRequest =
      gatePolicy (ValidateOrRefresh (exampleEnv 1000 0 none (Except.error "down")) "tok-A"
        "theme=dark") :=
  ⟨((RequireAuth_missing_session (exampleEnv 1000 0 none (Except.error "down")) "sid"
      noSessionRequest).2.2.1 (by decide)).1,
    ((RequireAuth_missing_session (exampleEnv 1000 0 none (Except.error "down")) "sid"
      exampleRequest).2.2.2 ⟨"sid", "tok-A"⟩ (by decide) (by decide)).1
      "theme=dark; sid=tok-A" [] (by decide),
    ((RequireAuth_missing_session (exampleEnv 1000 0 none (Except.error "down")) "sid"
      twoLineRequest).2.2.2 ⟨"sid", "tok-A"⟩ (by decide) (by decide)).1
      "theme=dark" ["sid=tok-A"] (by decide)⟩

end GuardNest
